import Mathlib

/-!
Verification of the manatcp transport framework (mediocregopher/manatcp).

The development shallowly embeds the two session engines of the library:

* the client-side connection multiplexer: the read loop `(*Conn).spin`,
  the shared command path `(*Conn).cmd` and its public wrappers
  `(*Conn).Cmd` / `(*Conn).CmdBg`;
* the server-side per-connection session `(*ListenerConn)`: the readCh
  case of its arbitration loop (both observed handler-protocol variants),
  the combined write-and-flush helper `(*ListenerConn).write`, the
  teardown epilogue of `(*ListenerConn).spin`, and the close trigger
  `(*ListenerConn).Close`.

Go channels relevant to the claims are modelled explicitly: closing a
channel is a fallible operation (`closeChan`), and `none` models the Go
runtime fault "close of closed channel".  Go `error` values are modelled
as abstract numeric codes; Go `interface{}` items are `Option α` with
`none` for Go `nil`.  Blocking forever is modelled by an `Option` result
being `none`.  Real time enters only through the client read loop's
2-second handoff window (`time.After(2 * time.Second)`), modelled by a
per-offer caller-arrival delay measured in seconds.
-/

namespace Manatcp

/-- Go `error` values, abstracted to a numeric code (`none` is Go `nil`). -/
abbrev GoError := Nat

/-- The record `readWrap{item, err, die}` of the source: one decode
outcome.  `item` is the decoded Go `interface{}` (`none` for `nil`),
`err` the error, `die` whether the connection should close.  The server
loop reuses the same struct with `err` always `nil`. -/
structure ReadWrap (α : Type) where
  item : Option α
  err  : Option GoError
  die  : Bool
deriving DecidableEq

/-- An event of the client read loop `(*Conn).spin`: either a non-push
outcome offered on `readCh` (with whether a command caller claimed it
within the handoff window), or a push item delivered on `PushCh`. -/
inductive ClientEvent (α : Type) where
  | offer (rw : ReadWrap α) (claimed : Bool)
  | push (item : Option α)
deriving DecidableEq

/-- The handoff window of the client read loop, from
`time.After(2 * time.Second)` in `(*Conn).spin`. -/
def handoffTimeoutSeconds : Nat := 2

/-- Whether a command caller arriving at `readCh` after the given delay
(in seconds; `none` = no caller ever arrives) claims the offered outcome
before the `time.After` timer fires.  The exact-boundary race of the Go
`select` is resolved towards the timeout. -/
def claimedWithin : Option Nat → Bool
  | none => false
  | some t => decide (t < handoffTimeoutSeconds)

/-- The branch condition of `(*Conn).spin`: an outcome goes to the
command-correlation point (readCh) when reading errored or the item is
not a push message; source line 76: `err != nil || !conn.client.IsPush(item)`. -/
def isResponseOutcome (isPush : Option α → Bool) (rw : ReadWrap α) : Bool :=
  rw.err.isSome || !(isPush rw.item)

/-- The client read loop `(*Conn).spin` (part_000 lines 73-90), as a
function of the stream of decode outcomes `(*Client).Read` would return,
each paired with the arrival delay of the next command caller at
`readCh`.  A response-path outcome is offered on `readCh` with a
2-second bounded wait and then, claimed or not, the loop exits when the
outcome carried `die`; a push item is delivered on `PushCh` and the loop
always continues.  Returns the event trace and whether the loop exited
(ran its epilogue: close the conn, close `PushCh`). -/
def Conn.spin (isPush : Option α → Bool) :
    List (ReadWrap α × Option Nat) → List (ClientEvent α) × Bool
  | [] => ([], false)
  | (rw, d) :: rest =>
    if isResponseOutcome isPush rw then
      if rw.die then
        ([ClientEvent.offer rw (claimedWithin d)], true)
      else
        (ClientEvent.offer rw (claimedWithin d) :: (Conn.spin isPush rest).1,
          (Conn.spin isPush rest).2)
    else
      (ClientEvent.push rw.item :: (Conn.spin isPush rest).1,
        (Conn.spin isPush rest).2)

/-- The prefix of the outcome stream the read loop actually requests
from `(*Client).Read`: everything up to and including the first
response-path outcome carrying `die` (a push item never stops the loop). -/
def Conn.consumed (isPush : Option α → Bool) :
    List (ReadWrap α × Option Nat) → List (ReadWrap α × Option Nat)
  | [] => []
  | (rw, d) :: rest =>
    (rw, d) ::
      (if isResponseOutcome isPush rw && rw.die then []
       else Conn.consumed isPush rest)

/-- The items a trace delivers on `PushCh`, in order. -/
def pushesOf : List (ClientEvent α) → List (Option α)
  | [] => []
  | ClientEvent.push i :: t => i :: pushesOf t
  | ClientEvent.offer _ _ :: t => pushesOf t

/-- The outcomes a trace offers on `readCh` (claimed or not), in order. -/
def offersOf : List (ClientEvent α) → List (ReadWrap α)
  | [] => []
  | ClientEvent.offer rw _ :: t => rw :: offersOf t
  | ClientEvent.push _ :: t => offersOf t

/-- The outcomes a command caller actually receives from `readCh`, in
order: exactly the offers claimed within the handoff window. -/
def deliveredOf : List (ClientEvent α) → List (ReadWrap α)
  | [] => []
  | ClientEvent.offer rw true :: t => rw :: deliveredOf t
  | ClientEvent.offer _ false :: t => deliveredOf t
  | ClientEvent.push _ :: t => deliveredOf t

/-- The environment one `(*Conn).cmd` call runs in: the result of
`conn.client.Write` (error and shouldClose flag), the error
`conn.buf.Writer.Flush` would return, and what the receive from
`readCh` yields (`none`: the read loop never delivers - `readCh` is
unbuffered and never closed, so the single-case `select` of `cmd`
never fires). -/
structure CmdEnv (α : Type) where
  writeErr : Option GoError
  writeDie : Bool
  flushErr : Option GoError
  readRecv : Option (ReadWrap α)
deriving DecidableEq

/-- The triple `(*Conn).cmd` (and `Cmd`) returns: response item, error,
and whether the connection is closed. -/
structure CmdResult (α : Type) where
  item : Option α
  err  : Option GoError
  closed : Bool
deriving DecidableEq

/-- The shared command path `(*Conn).cmd` (part_000 lines 92-108).
`none` as a result models the call never returning (blocked forever on
the final receive from `readCh`).  Write error: return it with the
capability's own `die` flag.  Background mode: return `(nil, nil,
false)` before the flush.  Flush error: return it with `closed = true`.
Otherwise block on `readCh` and return the delivered outcome verbatim. -/
def Conn.cmd (env : CmdEnv α) (bg : Bool) : Option (CmdResult α) :=
  match env.writeErr with
  | some e => some ⟨none, some e, env.writeDie⟩
  | none =>
    if bg then some ⟨none, none, false⟩
    else
      match env.flushErr with
      | some e => some ⟨none, some e, true⟩
      | none => env.readRecv.map fun rw => ⟨rw.item, rw.err, rw.die⟩

/-- The blocking command call `(*Conn).Cmd` (part_000 lines 114-116). -/
def Conn.Cmd (env : CmdEnv α) : Option (CmdResult α) :=
  Conn.cmd env false

/-- The background command call `(*Conn).CmdBg` (part_000 lines
120-123): runs `cmd` with `bg = true` and keeps only error and closed. -/
def Conn.CmdBg (env : CmdEnv α) : Option (Option GoError × Bool) :=
  (Conn.cmd env true).map fun r => (r.err, r.closed)

/-- A Go channel as far as the claims need it: whether it has been
closed. -/
structure GoChan where
  closed : Bool
deriving DecidableEq

/-- Go `close(ch)`: faults (`none`, modelling the runtime panic
"close of closed channel") when the channel is already closed. -/
def closeChan (c : GoChan) : Option GoChan :=
  if c.closed then none else some ⟨true⟩

/-- The state of a server session `ListenerConn` relevant to the close
and teardown claims: its two exported channels, whether the underlying
stream is open, whether the teardown drain task (`groundPushCh`) is
running, and whether the handler's `Closing` notification has run. -/
structure ListenerConnState where
  closeCh : GoChan
  pushCh  : GoChan
  connOpen : Bool
  drainActive : Bool
  handlerNotified : Bool
deriving DecidableEq

/-- The close trigger `(*ListenerConn).Close` (example.go lines
254-256 and 447-449): its whole body is `close(lc.CloseCh)`. -/
def ListenerConn.Close (s : ListenerConnState) : Option ListenerConnState :=
  (closeChan s.closeCh).map fun c => { s with closeCh := c }

/-- One step of the teardown epilogue of `(*ListenerConn).spin`. -/
inductive TeardownEvent where
  | drainStart
  | handlerClosing
  | streamClose
  | drainStop
  | pushChClose
  | closeChClose
deriving DecidableEq

/-- The teardown epilogue of `(*ListenerConn).spin` (example.go lines
241-248 and 435-442), run straight-line exactly once after the loop
breaks: start `groundPushCh` as a drain task, invoke the handler's
`Closing`, close the stream, stop the drain task (`close(doneClosing)`,
a fresh local channel, so it cannot fault), then `close(lc.PushCh)` and
`close(lc.CloseCh)`.  The two final closes go through `closeChan` and
fault when the channel is already closed. -/
def ListenerConn.teardown (s : ListenerConnState) :
    Option (ListenerConnState × List TeardownEvent) :=
  let s1 : ListenerConnState := { s with drainActive := true }
  let s2 : ListenerConnState := { s1 with handlerNotified := true }
  let s3 : ListenerConnState := { s2 with connOpen := false }
  let s4 : ListenerConnState := { s3 with drainActive := false }
  (closeChan s4.pushCh).bind fun p =>
    (closeChan s4.closeCh).map fun c =>
      ({ s4 with pushCh := p, closeCh := c },
        [TeardownEvent.drainStart, TeardownEvent.handlerClosing,
         TeardownEvent.streamClose, TeardownEvent.drainStop,
         TeardownEvent.pushChClose, TeardownEvent.closeChClose])

/-- The write-side capability of a `ServerClient`: whether
`serverClient.Write` asks to close for a given item, and whether the
following `Flush` of the buffered writer fails. -/
structure WriteCap (α : Type) where
  writeDie : Option α → Bool
  flushFails : Option α → Bool
deriving Inhabited

/-- The helper `(*ListenerConn).write` (example.go lines 195-203 and
387-395): `serverClient.Write`, then `Flush`; `true` means the
connection must close (a failed write or flush). -/
def ListenerConn.write (w : WriteCap α) (item : Option α) : Bool :=
  if w.writeDie item then true
  else if w.flushFails item then true
  else false

/-- A server handler in protocol variant A: `HandleCmd` returns
`(response, sendback, close)` (example.go lines 91-98 of the first
server file). -/
structure ServerClientA (α : Type) where
  wcap : WriteCap α
  handleCmd : Option α → Option α × Bool × Bool

/-- A server handler in protocol variant B: `HandleCmd` returns
`(response, close)` with a `nil` response standing for "no response"
only in the close case (example.go lines 292-298). -/
structure ServerClientB (α : Type) where
  wcap : WriteCap α
  handleCmd : Option α → Option α × Bool

/-- What one iteration of the arbitration loop decides: keep looping
(issue the next read) or `break spinloop`, which transitions the
session to Closing and runs the teardown epilogue. -/
inductive StepResult where
  | continueLoop
  | closing
deriving DecidableEq

/-- The `readCh` case of `(*ListenerConn).spin`, variant A (example.go
lines 217-229): a `die` read breaks at once; otherwise dispatch to
`HandleCmd`, write the response when `sendback`, and break when the
handler asked to close or the write failed.  The second component lists
the arguments passed to `lc.write`, in order. -/
def handleReadA (sc : ServerClientA α) (rw : ReadWrap α) :
    StepResult × List (Option α) :=
  if rw.die then (StepResult.closing, [])
  else
    match sc.handleCmd rw.item with
    | (res, sendback, dieCmd) =>
      if sendback then
        if dieCmd || ListenerConn.write sc.wcap res then
          (StepResult.closing, [res])
        else (StepResult.continueLoop, [res])
      else
        if dieCmd then (StepResult.closing, [])
        else (StepResult.continueLoop, [])

/-- The `readCh` case of `(*ListenerConn).spin`, variant B (example.go
lines 409-423): a `die` read breaks at once; when the handler asks to
close, a non-nil response is written (result ignored) and the loop
breaks; when it does not, the response is passed to `lc.write`
unconditionally and a failed write breaks. -/
def handleReadB (sc : ServerClientB α) (rw : ReadWrap α) :
    StepResult × List (Option α) :=
  if rw.die then (StepResult.closing, [])
  else
    match sc.handleCmd rw.item with
    | (res, die) =>
      if die then
        (StepResult.closing, if res.isSome then [res] else [])
      else
        if ListenerConn.write sc.wcap res then (StepResult.closing, [res])
        else (StepResult.continueLoop, [res])

/-! Concrete inputs used by the counterexamples and witnesses. -/

/-- An environment in which the encode succeeds and the flush would
fail with error code 5, with no caller delivery pending. -/
def envFlushFail : CmdEnv Nat := ⟨none, false, some 5, none⟩

/-- An environment in which the encode fails with error code 8 and the
capability reports the connection still usable (`die = false`). -/
def envWriteFailKeep : CmdEnv Nat := ⟨some 8, false, none, none⟩

/-- An environment in which the encode fails with error code 9 and the
capability reports the connection closed (`die = true`). -/
def envWriteFailDie : CmdEnv Nat := ⟨some 9, true, none, none⟩

/-- A session whose read loop has exited: write and flush succeed, but
nothing is ever received from `readCh`. -/
def envQuiet : CmdEnv Nat := ⟨none, false, none, none⟩

/-- A second read-loop-exited environment, over `Bool` items. -/
def envQuietB : CmdEnv Bool := ⟨none, true, none, none⟩

/-- A freshly accepted server session: both channels open, stream open,
no drain task, handler not yet notified. -/
def openListenerConn : ListenerConnState :=
  { closeCh := ⟨false⟩, pushCh := ⟨false⟩, connOpen := true,
    drainActive := false, handlerNotified := false }

/-- A write capability whose stream write always fails. -/
def wcapDie : WriteCap Nat := ⟨fun _ => true, fun _ => false⟩

/-- A write capability whose write and flush always succeed. -/
def wcapOk : WriteCap Nat := ⟨fun _ => false, fun _ => false⟩

/-- A decoded command with no close flag. -/
def rwCmd : ReadWrap Nat := ⟨some 0, none, false⟩

/-- A variant-A handler answering `(some 1, sendback, keep open)` over a
failing stream. -/
def scA_writeFail : ServerClientA Nat := ⟨wcapDie, fun _ => (some 1, true, false)⟩

/-- A variant-A handler answering `(some 2, sendback, close)` over a
healthy stream. -/
def scA_dieCmd : ServerClientA Nat := ⟨wcapOk, fun _ => (some 2, true, true)⟩

/-- A variant-B handler answering `(some 3, keep open)` over a failing
stream. -/
def scB_writeFail : ServerClientB Nat := ⟨wcapDie, fun _ => (some 3, false)⟩

/-- A variant-B handler answering `(some 4, close)` over a healthy
stream. -/
def scB_dieRes : ServerClientB Nat := ⟨wcapOk, fun _ => (some 4, true)⟩

/-- A variant-B handler answering a nil response with the close flag
off. -/
def scB_nilKeep : ServerClientB Nat := ⟨wcapOk, fun _ => (none, false)⟩

/-- A variant-B handler answering a nil response with the close flag
on. -/
def scB_nilClose : ServerClientB Nat := ⟨wcapOk, fun _ => (none, true)⟩

/-! Theorems settling the claims. -/

/-- Claim C1 (code bug): the close trigger is `close(lc.CloseCh)` and
closing a Go channel twice faults.  On a fresh session the first
`Close` succeeds, a second `Close` faults, and a single `Close`
followed by the teardown epilogue (whose last step is
`close(lc.CloseCh)`) faults as well — so Close is not idempotent and a
session closed externally always faults during teardown, against the
claim and against the method's own documentation. -/
theorem close_twice_or_teardown_faults :
    (ListenerConn.Close openListenerConn).isSome = true
  ∧ (ListenerConn.Close openListenerConn).bind ListenerConn.Close = none
  ∧ (ListenerConn.Close openListenerConn).bind
      (fun s => (ListenerConn.teardown s).map Prod.fst) = none :=
  ⟨rfl, rfl, rfl⟩

/-- Claim C2, counterexample: in an environment where the encode
succeeds and the flush fails with error 5, `Cmd` flushes and reports
`(error 5, closed = true)`, while `CmdBg` returns `(nil, false)` — it
never reaches the flush, so it does not report the flush failure as
`closed = true` the way `Cmd` does. -/
theorem cmdBg_skips_flush_cex :
    Conn.Cmd envFlushFail = some ⟨none, some 5, true⟩
  ∧ Conn.CmdBg envFlushFail = some (none, false)
  ∧ Conn.CmdBg envFlushFail ≠ some (some 5, true) :=
  ⟨rfl, rfl, by decide⟩

/-- Claim C2 as amended: `CmdBg` shares only the encode step with
`Cmd`.  On an encode error it returns the same (error, closed) pair
`Cmd` would; on a successful encode it returns `(nil, false)`
immediately, without flushing the write buffer and without touching
`readCh` — its result depends only on the encode outcome. -/
theorem cmdBg_write_only (env : CmdEnv α) :
    Conn.CmdBg env
      = some (env.writeErr, if env.writeErr.isSome then env.writeDie else false) := by
  rcases h : env.writeErr with _ | e <;> simp [Conn.CmdBg, Conn.cmd, h]

/-- Claim C3, counterexample: with an encode error (code 8) whose
`shouldClose` flag is `false`, `Cmd` returns `closed = false`, not the
unconditional `closed = true` the claim states. -/
theorem cmd_write_error_cex :
    Conn.Cmd envWriteFailKeep = some ⟨none, some 8, false⟩
  ∧ Conn.Cmd envWriteFailKeep ≠ some ⟨none, some 8, true⟩ :=
  ⟨rfl, by decide⟩

/-- Claim C3 as amended: whenever the encode capability returns a
non-nil error, `Cmd` returns immediately with that error and with
`closed` equal to the `shouldClose` flag the capability itself
returned. -/
theorem cmd_write_error_returns_die (env : CmdEnv α) (e : GoError)
    (h : env.writeErr = some e) :
    Conn.Cmd env = some ⟨none, some e, env.writeDie⟩ := by
  simp [Conn.Cmd, Conn.cmd, h]

/-- Witness for C3's amended theorem at a concrete environment. -/
theorem cmd_write_error_returns_die_witness :
    Conn.Cmd envWriteFailDie = some ⟨none, some 9, true⟩ :=
  cmd_write_error_returns_die envWriteFailDie 9 rfl

/-- Claim C4, counterexample: on a session whose read loop has exited
(`readCh` never delivers) and whose write and flush steps succeed,
`Cmd` produces no result at all — the single-case `select` on `readCh`
blocks forever; no synthetic session-closed error exists in the code. -/
theorem cmd_closed_session_blocks_cex :
    Conn.Cmd envQuiet = none
  ∧ ∀ r : CmdResult Nat, Conn.Cmd envQuiet ≠ some r :=
  ⟨rfl, fun _ h => Option.noConfusion h⟩

/-- Claim C4 as amended: a blocking `Cmd` on a session whose read loop
has exited returns only if the encode or flush step fails (with that
error); when both succeed it blocks forever on `readCh` — modelled by
the call having no result. -/
theorem cmd_closed_session_blocks (env : CmdEnv α)
    (hw : env.writeErr = none) (hf : env.flushErr = none)
    (hr : env.readRecv = none) :
    Conn.Cmd env = none := by
  simp [Conn.Cmd, Conn.cmd, hw, hf, hr]

/-- Witness for C4's amended theorem at a concrete environment. -/
theorem cmd_closed_session_blocks_witness :
    Conn.Cmd envQuietB = none :=
  cmd_closed_session_blocks envQuietB rfl rfl rfl

/-- Claim C7: in both handler-protocol variants of the arbitration
loop's readCh case, a failed write of a handler response forces the
transition to Closing even when the handler's close flag was false; and
when the close flag is true together with a response to send, the write
of that final response is attempted (it appears in the list of write
attempts) before the loop breaks. -/
theorem write_failure_forces_closing :
    (∀ (α : Type) (sc : ServerClientA α) (rw : ReadWrap α)
        (res : Option α) (dieCmd : Bool),
        rw.die = false → sc.handleCmd rw.item = (res, true, dieCmd) →
        ListenerConn.write sc.wcap res = true →
        handleReadA sc rw = (StepResult.closing, [res]))
  ∧ (∀ (α : Type) (sc : ServerClientA α) (rw : ReadWrap α) (res : Option α),
        rw.die = false → sc.handleCmd rw.item = (res, true, true) →
        handleReadA sc rw = (StepResult.closing, [res]))
  ∧ (∀ (α : Type) (sc : ServerClientB α) (rw : ReadWrap α) (res : Option α),
        rw.die = false → sc.handleCmd rw.item = (res, false) →
        ListenerConn.write sc.wcap res = true →
        handleReadB sc rw = (StepResult.closing, [res]))
  ∧ (∀ (α : Type) (sc : ServerClientB α) (rw : ReadWrap α) (r : α),
        rw.die = false → sc.handleCmd rw.item = (some r, true) →
        handleReadB sc rw = (StepResult.closing, [some r])) := by
  refine ⟨?_, ?_, ?_, ?_⟩
  · intro α sc rw res dieCmd hdie hcmd hw
    simp [handleReadA, hdie, hcmd, hw]
  · intro α sc rw res hdie hcmd
    simp [handleReadA, hdie, hcmd]
  · intro α sc rw res hdie hcmd hw
    simp [handleReadB, hdie, hcmd, hw]
  · intro α sc rw r hdie hcmd
    simp [handleReadB, hdie, hcmd]

/-- Witness for C7 at concrete handlers: a keep-open response over a
failing stream (both variants) and a close-flagged response over a
healthy stream (both variants). -/
theorem write_failure_forces_closing_witness :
    handleReadA scA_writeFail rwCmd = (StepResult.closing, [some 1])
  ∧ handleReadA scA_dieCmd rwCmd = (StepResult.closing, [some 2])
  ∧ handleReadB scB_writeFail rwCmd = (StepResult.closing, [some 3])
  ∧ handleReadB scB_dieRes rwCmd = (StepResult.closing, [some 4]) :=
  ⟨write_failure_forces_closing.1 Nat scA_writeFail rwCmd (some 1) false rfl rfl rfl,
   write_failure_forces_closing.2.1 Nat scA_dieCmd rwCmd (some 2) rfl rfl,
   write_failure_forces_closing.2.2.1 Nat scB_writeFail rwCmd (some 3) rfl rfl rfl,
   write_failure_forces_closing.2.2.2 Nat scB_dieRes rwCmd 4 rfl rfl⟩

/-- Claim C8: on a session whose exported channels are still open, the
teardown epilogue succeeds and performs exactly, and in this order:
drain-task start, handler Closing notification, stream close, drain
stop, `PushCh` close, `CloseCh` close; the final state has the stream
closed, the drain stopped, the handler notified and both channels
closed.  In particular the drain task is started before `Closing` runs
and `Closing` returns before the stream is closed. -/
theorem teardown_order (s : ListenerConnState)
    (hp : s.pushCh.closed = false) (hc : s.closeCh.closed = false) :
    ListenerConn.teardown s
      = some ({ closeCh := ⟨true⟩, pushCh := ⟨true⟩, connOpen := false,
                drainActive := false, handlerNotified := true },
          [TeardownEvent.drainStart, TeardownEvent.handlerClosing,
           TeardownEvent.streamClose, TeardownEvent.drainStop,
           TeardownEvent.pushChClose, TeardownEvent.closeChClose]) := by
  simp [ListenerConn.teardown, closeChan, hp, hc]

/-- Witness for C8 on a freshly accepted session. -/
theorem teardown_order_witness :
    ListenerConn.teardown openListenerConn
      = some ({ closeCh := ⟨true⟩, pushCh := ⟨true⟩, connOpen := false,
                drainActive := false, handlerNotified := true },
          [TeardownEvent.drainStart, TeardownEvent.handlerClosing,
           TeardownEvent.streamClose, TeardownEvent.drainStop,
           TeardownEvent.pushChClose, TeardownEvent.closeChClose]) :=
  teardown_order openListenerConn rfl rfl

/-- Claim C9, counterexample: in variant B, when the handler returns a
nil response with the close flag off, the loop still passes the nil
response to `lc.write` — a write to the stream is attempted, against
the claim that a nil response always means "no response". -/
theorem nil_response_still_written_cex :
    handleReadB scB_nilKeep rwCmd = (StepResult.continueLoop, [none])
  ∧ (handleReadB scB_nilKeep rwCmd).2 ≠ ([] : List (Option Nat)) :=
  ⟨rfl, by decide⟩

/-- Claim C9 as amended: in variant B a nil response suppresses the
write only when the close flag is set; when the close flag is false the
response — nil included — is always passed to the write path. -/
theorem nil_response_write_suppressed_only_on_close :
    (∀ (α : Type) (sc : ServerClientB α) (rw : ReadWrap α),
        rw.die = false → sc.handleCmd rw.item = (none, true) →
        handleReadB sc rw = (StepResult.closing, []))
  ∧ (∀ (α : Type) (sc : ServerClientB α) (rw : ReadWrap α),
        rw.die = false → sc.handleCmd rw.item = (none, false) →
        (handleReadB sc rw).2 = [none]) := by
  constructor
  · intro α sc rw hdie hcmd
    simp [handleReadB, hdie, hcmd]
  · intro α sc rw hdie hcmd
    rcases hw : ListenerConn.write sc.wcap none with _ | _ <;>
      simp [handleReadB, hdie, hcmd, hw]

/-- Witness for C9's amended theorem at concrete handlers. -/
theorem nil_response_write_suppressed_only_on_close_witness :
    handleReadB scB_nilClose rwCmd = (StepResult.closing, [])
  ∧ (handleReadB scB_nilKeep rwCmd).2 = [(none : Option Nat)] :=
  ⟨nil_response_write_suppressed_only_on_close.1 Nat scB_nilClose rwCmd rfl rfl,
   nil_response_write_suppressed_only_on_close.2 Nat scB_nilKeep rwCmd rfl rfl⟩

/-- Claim C5: over the prefix of decode outcomes the read loop
consumes, the loop routes each outcome to exactly one delivery path —
the push outlet receives exactly the successfully decoded push items,
in decode order; the command-correlation point is offered exactly the
remaining outcomes (non-push items and decode errors), in decode order;
and each consumed outcome produces exactly one event, so no outcome
ever appears on both paths. -/
theorem push_response_partition (isPush : Option α → Bool)
    (ins : List (ReadWrap α × Option Nat)) :
    pushesOf (Conn.spin isPush ins).1
      = (((Conn.consumed isPush ins).map Prod.fst).filter
          (fun rw => !(isResponseOutcome isPush rw))).map ReadWrap.item
  ∧ offersOf (Conn.spin isPush ins).1
      = ((Conn.consumed isPush ins).map Prod.fst).filter
          (fun rw => isResponseOutcome isPush rw)
  ∧ (Conn.spin isPush ins).1.length = (Conn.consumed isPush ins).length := by
  induction ins with
  | nil => simp [Conn.spin, Conn.consumed, pushesOf, offersOf]
  | cons p rest ih =>
    obtain ⟨rw, d⟩ := p
    rcases h : isResponseOutcome isPush rw with _ | _
    · simpa [Conn.spin, Conn.consumed, pushesOf, offersOf, h] using ih
    · rcases hd : rw.die with _ | _
      · simpa [Conn.spin, Conn.consumed, pushesOf, offersOf, h, hd] using ih
      · simp [Conn.spin, Conn.consumed, pushesOf, offersOf, h, hd]

/-- Claim C6: the outcomes a command caller ever receives from `readCh`
are exactly the consumed response-path outcomes whose caller arrived
within the handoff window; an outcome whose window expired is discarded
and reaches no later caller.  The window is the 2 seconds of
`time.After(2 * time.Second)`. -/
theorem bounded_unclaimed_handoff (isPush : Option α → Bool)
    (ins : List (ReadWrap α × Option Nat)) :
    deliveredOf (Conn.spin isPush ins).1
      = (Conn.consumed isPush ins).filterMap
          (fun p =>
            if isResponseOutcome isPush p.1 && claimedWithin p.2
            then some p.1 else none)
  ∧ handoffTimeoutSeconds = 2 := by
  refine ⟨?_, rfl⟩
  induction ins with
  | nil => simp [Conn.spin, Conn.consumed, deliveredOf]
  | cons p rest ih =>
    obtain ⟨rw, d⟩ := p
    rcases h : isResponseOutcome isPush rw with _ | _
    · simpa [Conn.spin, Conn.consumed, deliveredOf, h] using ih
    · rcases hd : rw.die with _ | _
      · rcases hc : claimedWithin d with _ | _ <;>
          simpa [Conn.spin, Conn.consumed, deliveredOf, h, hc, hd] using ih
      · rcases hc : claimedWithin d with _ | _ <;>
          simp [Conn.spin, Conn.consumed, deliveredOf, h, hc, hd]

/-- Claim C10: when the decode capability returns a successfully
decoded item classified as push, the read loop delivers it to the push
outlet and continues with the rest of the stream whatever the
`shouldClose` flag says — the trace and the exit flag do not depend on
`rw.die`, so a push item can never tear the session down. -/
theorem push_item_die_ignored (isPush : Option α → Bool) (rw : ReadWrap α)
    (d : Option Nat) (rest : List (ReadWrap α × Option Nat))
    (he : rw.err = none) (hp : isPush rw.item = true) :
    Conn.spin isPush ((rw, d) :: rest)
      = (ClientEvent.push rw.item :: (Conn.spin isPush rest).1,
         (Conn.spin isPush rest).2) := by
  have h : isResponseOutcome isPush rw = false := by
    simp [isResponseOutcome, he, hp]
  simp [Conn.spin, h]

/-- Witness for C10: a push item carrying `die = true` is delivered on
the push outlet and the loop does not exit. -/
theorem push_item_die_ignored_witness :
    Conn.spin (fun i => i == some 7) [((⟨some 7, none, true⟩ : ReadWrap Nat), none)]
      = (ClientEvent.push (some 7)
          :: (Conn.spin (fun i : Option Nat => i == some 7) []).1,
         (Conn.spin (fun i : Option Nat => i == some 7) []).2) :=
  push_item_die_ignored (fun i => i == some 7) ⟨some 7, none, true⟩ none [] rfl rfl

end Manatcp
